import Mathlib

/-!
Shallow embedding of the dispatch-and-tracking core of the hospital-app
repository: the SOS trigger route, the patient location PATCH, the driver
location / status routes, the hospital emergencies route, the tracking read
cache and the document view route, together with the geo utility of
`lib/services/maps.ts` and the token utility of `lib/auth/documentToken.ts`.

Machine floating-point trigonometry (the haversine `calculateDistance`) is
not embedded; every handler that calls it takes the distance function as an
explicit parameter `dist`, and theorems quantify over it.  Times are epoch
milliseconds as `Nat`; coordinates are `Rat`.
-/

namespace HospitalApp

/-- The three user roles of the application. -/
inductive Role
  | patient
  | hospital
  | driver
deriving DecidableEq, Repr

/-- Emergency lifecycle status, from the status string field. -/
inductive Status
  | pending
  | assigned
  | en_route
  | arrived
  | completed
deriving DecidableEq, Repr

/-- Position of a status along the lifecycle ordering
`pending < assigned < en_route < arrived < completed` of the spec. -/
def statusRank : Status → Nat
  | .pending => 0
  | .assigned => 1
  | .en_route => 2
  | .arrived => 3
  | .completed => 4

/-- Spec-side predicate (section 3 of the spec): a status step is allowed when
it does not regress along the ordering, except that `en_route` and `arrived`
may alternate during the two-phase transit. -/
def specAllowedStatusStep (old new : Status) : Bool :=
  statusRank old ≤ statusRank new ||
    (old == Status.arrived && new == Status.en_route)

/-- A row of the prisma `user` table, restricted to the fields the embedded
routes read. -/
structure User where
  id : String
  role : Role
  isActive : Bool
  name : String
  email : String
  phone : String
  licenseNumber : Option String
  address : Option String
  vehiclePlate : Option String
  locationLat : Option Rat
  locationLng : Option Rat
  createdAt : Nat
deriving DecidableEq, Repr

/-- A row of the prisma `emergency` table, restricted to the fields the
embedded routes read or write. -/
structure Emergency where
  id : String
  patientId : String
  status : Status
  patientLat : Rat
  patientLng : Rat
  address : String
  symptoms : Option String
  severityScore : Option Nat
  aiAssessment : Option String
  assignedHospitalId : Option String
  assignedDriverId : Option String
  driverLat : Option Rat
  driverLng : Option Rat
  driverLastLocationUpdate : Option Nat
  distanceKm : Option Rat
  etaMinutes : Option Int
  assignedBedType : Option String
  hospitalNotes : Option String
  triggeredAt : Nat
  acceptedAt : Option Nat
  arrivedAt : Option Nat
  completedAt : Option Nat
deriving DecidableEq, Repr

/-- A row of the prisma `medicalDocument` table. -/
structure MedicalDocument where
  id : String
  emergencyId : String
  url : String
  cloudinaryId : String
  expiresAt : Nat
  createdAt : Nat
deriving DecidableEq, Repr

/-- The pre-verified identity `getRequestUser` attaches to a request. -/
structure RequestUser where
  id : String
  role : Role
deriving DecidableEq, Repr

/-- The `location` object of a request body; `none` coordinates stand for
absent, `null` or non-finite values, all of which fail the same
`Number.isFinite` guard of the source. -/
structure LocationIn where
  lat : Option Rat
  lng : Option Rat
  address : Option String
deriving DecidableEq, Repr

/-- Result of the severity scorer collaborator (`analyzeSymptomsWithAI`);
`none` stands for failure or a null result, both of which the source absorbs
into its fixed defaults. -/
structure AiResult where
  severityScore : Nat
  assessment : String
deriving DecidableEq, Repr

/-! ## Small list helpers shared by the handlers -/

/-- JavaScript `s || null`: an absent or empty string becomes `null`. -/
def presentString : Option String → Option String
  | none => none
  | some s => if s = "" then none else some s

/-- Insert into a list sorted by the boolean comparator `le`. -/
def insertIntoSorted (le : α → α → Bool) (a : α) : List α → List α
  | [] => [a]
  | b :: bs => if le a b then a :: b :: bs else b :: insertIntoSorted le a bs

/-- Model of the stable JavaScript `Array.prototype.sort` used by the ranking
steps (insertion sort, stable for the comparators in use). -/
def insertionSortBy (le : α → α → Bool) : List α → List α
  | [] => []
  | a :: as => insertIntoSorted le a (insertionSortBy le as)

theorem mem_insertIntoSorted (le : α → α → Bool) (a x : α) (l : List α) :
    x ∈ insertIntoSorted le a l ↔ x = a ∨ x ∈ l := by
  induction l with
  | nil => simp [insertIntoSorted]
  | cons b bs ih =>
    by_cases h : le a b = true
    · simp [insertIntoSorted, h]
    · simp only [insertIntoSorted, if_neg h, List.mem_cons, ih]
      tauto

theorem mem_insertionSortBy (le : α → α → Bool) (x : α) (l : List α) :
    x ∈ insertionSortBy le l ↔ x ∈ l := by
  induction l with
  | nil => simp [insertionSortBy]
  | cons a as ih =>
    simp [insertionSortBy, mem_insertIntoSorted, ih]

/-- First row with the given id (prisma `findUnique` over the id key). -/
def findById (db : List Emergency) (eid : String) : Option Emergency :=
  db.find? (fun e => e.id == eid)

/-- First user row with the given id. -/
def findUser (users : List User) (uid : String) : Option User :=
  users.find? (fun u => u.id == uid)

/-- Prisma `update where id`: rewrite the rows carrying the id. -/
def updateById (db : List Emergency) (eid : String) (f : Emergency → Emergency) :
    List Emergency :=
  db.map (fun e => if e.id == eid then f e else e)

/-- Status of the first row with the given id, after an operation. -/
def statusAfter (db : List Emergency) (eid : String) : Option Status :=
  (findById db eid).map Emergency.status

theorem find?_and_of_find? {α} (p q : α → Bool) (l : List α) (a : α)
    (hp : l.find? p = some a) (hq : q a = true) :
    l.find? (fun x => p x && q x) = some a := by
  induction l with
  | nil => simp [List.find?] at hp
  | cons b bs ih =>
    by_cases hb : p b = true
    · rw [List.find?_cons_of_pos _ hb] at hp
      cases hp
      exact List.find?_cons_of_pos _ (by simp [hb, hq])
    · rw [List.find?_cons_of_neg _ hb] at hp
      have : (fun x => p x && q x) b = false := by
        simp [Bool.not_eq_true] at hb
        simp [hb]
      rw [List.find?_cons_of_neg _ (by simp [this])]
      exact ih hp

theorem findById_updateById (db : List Emergency) (eid : String)
    (f : Emergency → Emergency) (e : Emergency)
    (hid : ∀ x, (f x).id = x.id) (h : findById db eid = some e) :
    findById (updateById db eid f) eid = some (f e) := by
  induction db with
  | nil => simp [findById, List.find?] at h
  | cons b bs ih =>
    by_cases hb : (b.id == eid) = true
    · unfold findById at h
      rw [List.find?_cons_of_pos bs
        (show (fun x : Emergency => x.id == eid) b = true from hb)] at h
      obtain rfl := Option.some.inj h
      unfold updateById findById
      simp only [List.map_cons]
      rw [if_pos hb]
      exact List.find?_cons_of_pos _
        (show (fun x : Emergency => x.id == eid) (f b) = true from by
          show ((f b).id == eid) = true
          rw [hid]; exact hb)
    · unfold findById at h
      rw [List.find?_cons_of_neg bs
        (show ¬ (fun x : Emergency => x.id == eid) b = true from hb)] at h
      unfold updateById findById
      simp only [List.map_cons]
      rw [if_neg hb]
      have hb' : (b.id == eid) = false := by simpa using hb
      simp only [List.find?_cons, hb']
      exact ih h

theorem findUser_self (users : List User) (u : User)
    (hnd : (users.map User.id).Nodup) (hmem : u ∈ users) :
    findUser users u.id = some u := by
  induction users with
  | nil => cases hmem
  | cons b bs ih =>
    rcases List.mem_cons.mp hmem with h | h
    · cases h
      exact List.find?_cons_of_pos _ (by simp)
    · have hne : b.id ≠ u.id := by
        intro hcontra
        have : u.id ∈ bs.map User.id := List.mem_map_of_mem _ h
        rw [List.map_cons, List.nodup_cons] at hnd
        exact hnd.1 (hcontra ▸ this)
      rw [findUser, List.find?_cons_of_neg _ (by simp [hne])]
      rw [List.map_cons, List.nodup_cons] at hnd
      exact ih hnd.2 h

/-! ## GeoRank (`lib/services/maps.ts`) -/

/-- `calculateETA` of the maps utility: minutes to cover `distanceKm` at the
fixed average speed (default 60 km/h), rounded up. -/
def calculateETA (distanceKm : Rat) (averageSpeedKmh : Rat := 60) : Int :=
  Int.ceil (distanceKm / averageSpeedKmh * 60)

/-- A hospital candidate produced by `findNearestHospitals`: the user row
(the source spreads its fields) together with the computed distance. -/
structure RankedHospital where
  user : User
  distance : Rat
deriving DecidableEq, Repr

/-- A driver candidate produced by `findNearestAmbulances`; a driver without
a location gets distance `none`, standing for `Number.POSITIVE_INFINITY` and
ranked after every finite distance. -/
structure RankedDriver where
  user : User
  distance : Option Rat
deriving DecidableEq, Repr

/-- Comparator of the hospital ranking step (`a.distance - b.distance`). -/
def hospitalLE (a b : RankedHospital) : Bool :=
  decide (a.distance ≤ b.distance)

/-- Comparator of the ambulance ranking step: distance ascending with `none`
as infinity, ties broken by id in lexical order (`localeCompare`). -/
def driverLE (a b : RankedDriver) : Bool :=
  match a.distance, b.distance with
  | some x, some y => if x = y then a.user.id ≤ b.user.id else decide (x < y)
  | some _, none => true
  | none, some _ => false
  | none, none => a.user.id ≤ b.user.id

/-- `findNearestHospitals`: active hospital users with a non-null location,
ranked by distance from the patient, first `limit` kept. -/
def findNearestHospitals (dist : Rat → Rat → Rat → Rat → Rat)
    (users : List User) (latitude longitude : Rat) (limit : Nat) :
    List RankedHospital :=
  let candidates := users.filter (fun u =>
    u.role == Role.hospital && u.isActive &&
      u.locationLat.isSome && u.locationLng.isSome)
  let ranked := candidates.filterMap (fun h =>
    match h.locationLat, h.locationLng with
    | some hlat, some hlng =>
      some { user := h, distance := dist latitude longitude hlat hlng }
    | _, _ => none)
  (insertionSortBy hospitalLE ranked).take limit

/-- `findNearestAmbulances`: active drivers, restricted to the given license
when one is supplied, ranked by distance (missing location ranked last), ties
by id, first `limit` kept. -/
def findNearestAmbulances (dist : Rat → Rat → Rat → Rat → Rat)
    (users : List User) (latitude longitude : Rat) (limit : Nat)
    (licenseNumber : Option String) : List RankedDriver :=
  let candidates := users.filter (fun u =>
    u.role == Role.driver && u.isActive &&
      (match licenseNumber with
       | some l => u.licenseNumber == some l
       | none => true))
  let ranked := candidates.map (fun d =>
    { user := d
      distance :=
        match d.locationLat, d.locationLng with
        | some dlat, some dlng => some (dist latitude longitude dlat dlng)
        | _, _ => none })
  (insertionSortBy driverLE ranked).take limit

theorem mem_findNearestAmbulances (dist : Rat → Rat → Rat → Rat → Rat)
    (users : List User) (latitude longitude : Rat) (limit : Nat)
    (l : String) (r : RankedDriver)
    (h : r ∈ findNearestAmbulances dist users latitude longitude limit (some l)) :
    r.user ∈ users ∧ r.user.licenseNumber = some l := by
  unfold findNearestAmbulances at h
  have h1 := List.mem_of_mem_take h
  rw [mem_insertionSortBy] at h1
  obtain ⟨d, hd, rfl⟩ := List.mem_map.mp h1
  have := List.mem_filter.mp hd
  refine ⟨this.1, ?_⟩
  have hlic := this.2
  simp only [Bool.and_eq_true, beq_iff_eq] at hlic
  exact hlic.2

/-! ## Driver location report
(`POST` of the driver location route, second half of
`api/emergency/tracking/route.ts` in the source bundle) -/

/-- The `tracking` object of a driver location response. -/
structure DriverTracking where
  distance : Rat
  eta : Int
  nearingPatient : Bool
  patientAddress : String
deriving DecidableEq, Repr

/-- Response of the driver location `POST`. -/
structure DriverPostResponse where
  httpStatus : Nat
  error : Option String := none
  success : Option Bool := none
  tracking : Option DriverTracking := none
  notification : Option String := none
deriving DecidableEq, Repr

/-- The write the driver location `POST` persists when the throttle does not
suppress it. -/
def driverLocationWrite (latitude longitude : Rat) (now : Nat)
    (distance : Rat) (eta : Int) (nextStatus : Status) (e : Emergency) :
    Emergency :=
  { e with
    driverLat := some latitude
    driverLng := some longitude
    driverLastLocationUpdate := some now
    distanceKm := some distance
    etaMinutes := some eta
    status := nextStatus }

/-- `lastAt` of the driver location `POST`: the persisted
`driverLastLocationUpdate` or the falsy `0` when none was ever written. -/
def pdlLastAt (e : Emergency) : Nat :=
  match e.driverLastLocationUpdate with
  | some t => t
  | none => 0

/-- `movedKm` of the driver location `POST`: distance from the new position
to the persisted one, or the sentinel `999` when none is persisted. -/
def pdlMovedKm (dist : Rat → Rat → Rat → Rat → Rat) (lat lng : Rat)
    (e : Emergency) : Rat :=
  match e.driverLat, e.driverLng with
  | some plat, some plng => dist lat lng plat plng
  | _, _ => 999

/-- The derived next status of the driver location `POST`: `arrived` within
1 km of the patient, `en_route` otherwise. -/
def pdlNextStatus (distance : Rat) : Status :=
  if distance < 1 then Status.arrived else Status.en_route

/-- The write-suppression condition of the driver location `POST`: previous
write fresh (under 4 seconds), movement under 0.02 km, derived status
unchanged. -/
def pdlSkip (dist : Rat → Rat → Rat → Rat → Rat) (lat lng : Rat) (now : Nat)
    (e : Emergency) : Prop :=
  (pdlLastAt e ≠ 0 ∧ now - pdlLastAt e < 4000) ∧
    pdlMovedKm dist lat lng e < mkRat 2 100 ∧
    e.status = pdlNextStatus (dist lat lng e.patientLat e.patientLng)

instance (dist : Rat → Rat → Rat → Rat → Rat) (lat lng : Rat) (now : Nat)
    (e : Emergency) : Decidable (pdlSkip dist lat lng now e) :=
  inferInstanceAs (Decidable ((pdlLastAt e ≠ 0 ∧ now - pdlLastAt e < 4000) ∧
    pdlMovedKm dist lat lng e < mkRat 2 100 ∧
    e.status = pdlNextStatus (dist lat lng e.patientLat e.patientLng)))

/-- The `tracking` object both branches of the driver location `POST`
return: freshly computed distance, ETA and nearing flag. -/
def pdlTracking (dist : Rat → Rat → Rat → Rat → Rat) (lat lng : Rat)
    (e : Emergency) : DriverTracking :=
  { distance := dist lat lng e.patientLat e.patientLng
    eta := calculateETA (dist lat lng e.patientLat e.patientLng)
    nearingPatient := decide (dist lat lng e.patientLat e.patientLng < 1)
    patientAddress := e.address }

/-- `POST /api/driver/location` (`reportDriverLocation`): validate, find the
emergency assigned to this driver, compute distance/ETA/nearing, derive the
next status, and either skip the write under the throttle or persist the new
telemetry. -/
def postDriverLocation (dist : Rat → Rat → Rat → Rat → Rat)
    (requestUser : Option RequestUser) (emergencyId : Option String)
    (latitude longitude : Option Rat) (now : Nat) (db : List Emergency) :
    DriverPostResponse × List Emergency :=
  match requestUser with
  | none => ({ httpStatus := 401, error := some "Unauthorized" }, db)
  | some u =>
    if u.role ≠ Role.driver then
      ({ httpStatus := 401, error := some "Unauthorized" }, db)
    else
      match emergencyId, latitude, longitude with
      | some eid, some lat, some lng =>
        if lat < -90 ∨ lat > 90 ∨ lng < -180 ∨ lng > 180 then
          ({ httpStatus := 400, error := some "Invalid coordinates" }, db)
        else
          match db.find? (fun e => e.id == eid && e.assignedDriverId == some u.id) with
          | none =>
            ({ httpStatus := 404,
               error := some "Emergency not found or not assigned to you" }, db)
          | some e =>
            if pdlSkip dist lat lng now e then
              ({ httpStatus := 200, success := some true
                 tracking := some (pdlTracking dist lat lng e) }, db)
            else
              ({ httpStatus := 200, success := some true
                 tracking := some (pdlTracking dist lat lng e)
                 notification :=
                   if dist lat lng e.patientLat e.patientLng < 1 then
                     some "You have arrived at the patient location"
                   else none },
               updateById db eid
                 (driverLocationWrite lat lng now
                   (dist lat lng e.patientLat e.patientLng)
                   (calculateETA (dist lat lng e.patientLat e.patientLng))
                   (pdlNextStatus (dist lat lng e.patientLat e.patientLng))))
      | _, _, _ =>
        ({ httpStatus := 400,
           error := some "Emergency ID and coordinates are required" }, db)

theorem postDriverLocation_found (dist : Rat → Rat → Rat → Rat → Rat)
    (uid eid : String) (lat lng : Rat) (now : Nat) (db : List Emergency)
    (e : Emergency)
    (hfind : db.find? (fun x => x.id == eid && x.assignedDriverId == some uid) = some e)
    (hrange : ¬(lat < -90 ∨ lat > 90 ∨ lng < -180 ∨ lng > 180)) :
    postDriverLocation dist (some ⟨uid, Role.driver⟩) (some eid)
      (some lat) (some lng) now db =
    if pdlSkip dist lat lng now e then
      ({ httpStatus := 200, success := some true
         tracking := some (pdlTracking dist lat lng e) }, db)
    else
      ({ httpStatus := 200, success := some true
         tracking := some (pdlTracking dist lat lng e)
         notification :=
           if dist lat lng e.patientLat e.patientLng < 1 then
             some "You have arrived at the patient location"
           else none },
       updateById db eid
         (driverLocationWrite lat lng now
           (dist lat lng e.patientLat e.patientLng)
           (calculateETA (dist lat lng e.patientLat e.patientLng))
           (pdlNextStatus (dist lat lng e.patientLat e.patientLng)))) := by
  simp only [postDriverLocation]
  rw [if_neg (by simp : ¬(RequestUser.mk uid Role.driver).role ≠ Role.driver)]
  rw [if_neg hrange]
  rw [hfind]

/-- C7: for a pair of consecutive `reportDriverLocation` calls on the same
emergency (so a previous write exists: persisted driver coordinates and a
nonzero `driverLastLocationUpdate`), the second call skips the persistence
write exactly when the previous write is less than 4 seconds old AND the new
position is within 20 meters (0.02 km) of the persisted one AND the derived
status is unchanged; any one condition failing forces the write, and in both
cases the response carries the freshly computed distance and ETA. -/
theorem c7_throttle (dist : Rat → Rat → Rat → Rat → Rat) (uid eid : String)
    (lat lng plat plng : Rat) (t now : Nat) (db : List Emergency) (e : Emergency)
    (hfind : db.find? (fun x => x.id == eid && x.assignedDriverId == some uid) = some e)
    (hrange : ¬(lat < -90 ∨ lat > 90 ∨ lng < -180 ∨ lng > 180))
    (hprevT : e.driverLastLocationUpdate = some t) (ht : t ≠ 0)
    (hprevLat : e.driverLat = some plat) (hprevLng : e.driverLng = some plng) :
    ((postDriverLocation dist (some ⟨uid, Role.driver⟩) (some eid)
        (some lat) (some lng) now db).1.tracking =
      some { distance := dist lat lng e.patientLat e.patientLng
             eta := calculateETA (dist lat lng e.patientLat e.patientLng)
             nearingPatient := decide (dist lat lng e.patientLat e.patientLng < 1)
             patientAddress := e.address }) ∧
    ((now - t < 4000 ∧ dist lat lng plat plng < mkRat 2 100 ∧
        e.status = (if dist lat lng e.patientLat e.patientLng < 1
          then Status.arrived else Status.en_route)) →
      (postDriverLocation dist (some ⟨uid, Role.driver⟩) (some eid)
        (some lat) (some lng) now db).2 = db) ∧
    (¬(now - t < 4000 ∧ dist lat lng plat plng < mkRat 2 100 ∧
        e.status = (if dist lat lng e.patientLat e.patientLng < 1
          then Status.arrived else Status.en_route)) →
      (postDriverLocation dist (some ⟨uid, Role.driver⟩) (some eid)
        (some lat) (some lng) now db).2 =
        updateById db eid (driverLocationWrite lat lng now
          (dist lat lng e.patientLat e.patientLng)
          (calculateETA (dist lat lng e.patientLat e.patientLng))
          (if dist lat lng e.patientLat e.patientLng < 1
            then Status.arrived else Status.en_route))) := by
  have hrun := postDriverLocation_found dist uid eid lat lng now db e hfind hrange
  have hskip_iff : pdlSkip dist lat lng now e ↔
      (now - t < 4000 ∧ dist lat lng plat plng < mkRat 2 100 ∧
        e.status = (if dist lat lng e.patientLat e.patientLng < 1
          then Status.arrived else Status.en_route)) := by
    unfold pdlSkip pdlLastAt pdlMovedKm pdlNextStatus
    rw [hprevT, hprevLat, hprevLng]
    simp [ht, and_assoc]
  by_cases hskip : now - t < 4000 ∧ dist lat lng plat plng < mkRat 2 100 ∧
      e.status = (if dist lat lng e.patientLat e.patientLng < 1
        then Status.arrived else Status.en_route)
  · rw [hrun, if_pos (hskip_iff.mpr hskip)]
    exact ⟨rfl, fun _ => rfl, fun hcontra => absurd hskip hcontra⟩
  · rw [hrun, if_neg (fun hcond => hskip (hskip_iff.mp hcond))]
    exact ⟨rfl, fun hcontra => absurd hcontra hskip, fun _ => rfl⟩

/-- Concrete distance function for witnesses: constant 5 km. -/
def witnessDist : Rat → Rat → Rat → Rat → Rat := fun _ _ _ _ => 5

/-- Concrete emergency for the throttle witness: an `en_route` case with a
persisted driver position and write timestamp. -/
def c7Emergency : Emergency :=
  { id := "E1", patientId := "P1", status := Status.en_route
    patientLat := 10, patientLng := 10, address := "43 Main St"
    symptoms := none, severityScore := some 50, aiAssessment := none
    assignedHospitalId := some "H1", assignedDriverId := some "D1"
    driverLat := some 10, driverLng := some 10
    driverLastLocationUpdate := some 1000
    distanceKm := some 5, etaMinutes := some 5
    assignedBedType := none, hospitalNotes := none
    triggeredAt := 0, acceptedAt := none, arrivedAt := none, completedAt := none }

/-- Witness for C7: a report 1 second after the previous write but 5 km away
is persisted (the movement condition fails, so the write is forced). -/
theorem c7_witness :
    ¬((2000 : Nat) - 1000 < 4000 ∧ witnessDist 11 11 10 10 < mkRat 2 100 ∧
        c7Emergency.status = (if witnessDist 11 11 c7Emergency.patientLat
          c7Emergency.patientLng < 1 then Status.arrived else Status.en_route)) ∧
    (postDriverLocation witnessDist (some ⟨"D1", Role.driver⟩) (some "E1")
        (some 11) (some 11) 2000 [c7Emergency]).2 =
      updateById [c7Emergency] "E1" (driverLocationWrite 11 11 2000
        (witnessDist 11 11 c7Emergency.patientLat c7Emergency.patientLng)
        (calculateETA (witnessDist 11 11 c7Emergency.patientLat c7Emergency.patientLng))
        (if witnessDist 11 11 c7Emergency.patientLat c7Emergency.patientLng < 1
          then Status.arrived else Status.en_route)) :=
  ⟨by decide,
   (c7_throttle witnessDist "D1" "E1" 11 11 10 10 1000 2000 [c7Emergency]
     c7Emergency (by decide) (by decide) (by decide) (by decide)
     (by decide) (by decide)).2.2 (by decide)⟩

/-! ## Patient SOS `PATCH` (`updatePatientLocation`) -/

/-- The `emergency` object echoed by the patient SOS `PATCH`. -/
structure PatchEmergencyView where
  id : String
  status : Status
  patientLat : Rat
  patientLng : Rat
deriving DecidableEq, Repr

/-- Response of the patient SOS `PATCH`; `statusEcho` is the bare `status`
field of the completed short-circuit response. -/
structure PatchResponse where
  httpStatus : Nat
  error : Option String := none
  success : Option Bool := none
  statusEcho : Option Status := none
  emergency : Option PatchEmergencyView := none
deriving DecidableEq, Repr

/-- The write of the patient SOS `PATCH`: overwrite the coordinates, and the
address only when one was supplied (`address != null ? ... : undefined`). -/
def patientLocationWrite (lat lng : Rat) (address : Option String)
    (e : Emergency) : Emergency :=
  { e with
    patientLat := lat
    patientLng := lng
    address := match address with | some a => a | none => e.address }

/-- `PATCH` of the patient SOS route (`updatePatientLocation`): validate,
find the emergency owned by this patient, write the new location, then echo
either the bare terminal status or the updated record. -/
def patchPatientLocation (requestUser : Option RequestUser)
    (emergencyId : Option String) (location : Option LocationIn)
    (db : List Emergency) : PatchResponse × List Emergency :=
  match requestUser with
  | none => ({ httpStatus := 401, error := some "Unauthorized" }, db)
  | some u =>
    if u.role ≠ Role.patient then
      ({ httpStatus := 401, error := some "Unauthorized" }, db)
    else
      match emergencyId with
      | none => ({ httpStatus := 400, error := some "Emergency ID is required" }, db)
      | some eid =>
        match location with
        | none => ({ httpStatus := 400, error := some "Invalid location data" }, db)
        | some loc =>
          match loc.lat, loc.lng with
          | some lat, some lng =>
            match db.find? (fun e => e.id == eid && e.patientId == u.id) with
            | none => ({ httpStatus := 404, error := some "Emergency not found" }, db)
            | some e =>
              let updated := patientLocationWrite lat lng loc.address e
              let db2 := updateById db eid (patientLocationWrite lat lng loc.address)
              if updated.status = Status.completed then
                ({ httpStatus := 200, success := some true
                   statusEcho := some Status.completed }, db2)
              else
                ({ httpStatus := 200, success := some true
                   emergency := some
                     { id := updated.id, status := updated.status
                       patientLat := updated.patientLat
                       patientLng := updated.patientLng } }, db2)
          | _, _ => ({ httpStatus := 400, error := some "Invalid location data" }, db)

/-! ## Driver status `PATCH`, hospital accept `POST`, hospital status `PUT` -/

/-- Response of the driver status `PATCH`. -/
structure DriverPatchResponse where
  httpStatus : Nat
  error : Option String := none
  success : Option Bool := none
  status : Option Status := none
deriving DecidableEq, Repr

/-- The write of the driver status `PATCH`: recognized actions set their
target status (stamping `arrivedAt` or `completedAt`), otherwise a raw
`status` body value is written as-is, otherwise nothing changes.  The raw
value is modelled as an already-parsed `Status`; the route itself performs
no validation on it. -/
def driverActionWrite (action : Option String) (statusBody : Option Status)
    (now : Nat) (e : Emergency) : Emergency :=
  if action = some "patient_loaded" then { e with status := Status.en_route }
  else if action = some "arrived_hospital" then
    { e with status := Status.arrived, arrivedAt := some now }
  else if action = some "handover_complete" then
    { e with status := Status.completed, completedAt := some now }
  else
    match statusBody with
    | some s => { e with status := s }
    | none => e

/-- `PATCH` of the driver location route (driver status action). -/
def driverStatusAction (requestUser : Option RequestUser)
    (emergencyId : Option String) (statusBody : Option Status)
    (action : Option String) (now : Nat) (db : List Emergency) :
    DriverPatchResponse × List Emergency :=
  match requestUser with
  | none => ({ httpStatus := 401, error := some "Unauthorized" }, db)
  | some u =>
    if u.role ≠ Role.driver then
      ({ httpStatus := 401, error := some "Unauthorized" }, db)
    else
      match emergencyId with
      | none => ({ httpStatus := 400, error := some "Emergency ID is required" }, db)
      | some eid =>
        match db.find? (fun e => e.id == eid && e.assignedDriverId == some u.id) with
        | none => ({ httpStatus := 404, error := some "Emergency not found" }, db)
        | some e =>
          let updated := driverActionWrite action statusBody now e
          ({ httpStatus := 200, success := some true, status := some updated.status },
           updateById db eid (driverActionWrite action statusBody now))

/-- Response of the hospital accept `POST` and status `PUT`. -/
structure AcceptResponse where
  httpStatus : Nat
  error : Option String := none
  success : Option Bool := none
  status : Option Status := none
  acceptedAt : Option Nat := none
deriving DecidableEq, Repr

/-- The write of the hospital accept action: claim the case for the
accepting hospital, force status `assigned`, stamp `acceptedAt`. -/
def acceptWrite (hospitalId : String) (now : Nat) (e : Emergency) : Emergency :=
  { e with
    assignedHospitalId := some hospitalId
    status := Status.assigned
    acceptedAt := some now }

/-- `POST` of the hospital emergencies route (`acceptCase`): update by id
with a not-found fallback (`.catch`). -/
def acceptCase (requestUser : Option RequestUser) (emergencyId : Option String)
    (now : Nat) (db : List Emergency) : AcceptResponse × List Emergency :=
  match requestUser with
  | none => ({ httpStatus := 401, error := some "Unauthorized" }, db)
  | some u =>
    if u.role ≠ Role.hospital then
      ({ httpStatus := 401, error := some "Unauthorized" }, db)
    else
      match emergencyId with
      | none => ({ httpStatus := 400, error := some "Emergency ID is required" }, db)
      | some eid =>
        match findById db eid with
        | none => ({ httpStatus := 404, error := some "Emergency not found" }, db)
        | some e =>
          let updated := acceptWrite u.id now e
          ({ httpStatus := 200, success := some true
             status := some updated.status, acceptedAt := updated.acceptedAt },
           updateById db eid (acceptWrite u.id now))

/-- The `validStatuses` membership check of the hospital status `PUT`. -/
def parseStatus : String → Option Status
  | "pending" => some Status.pending
  | "assigned" => some Status.assigned
  | "en_route" => some Status.en_route
  | "arrived" => some Status.arrived
  | "completed" => some Status.completed
  | _ => none

/-- The write of the hospital status `PUT`: the requested status plus the
timestamp stamps and the optional bed type and notes. -/
def hospitalStatusWrite (s : Status) (bedType notes : Option String)
    (now : Nat) (e : Emergency) : Emergency :=
  { e with
    status := s
    arrivedAt := if s = Status.arrived then some now else e.arrivedAt
    completedAt := if s = Status.completed then some now else e.completedAt
    assignedBedType :=
      match presentString bedType with
      | some b => some b
      | none => e.assignedBedType
    hospitalNotes :=
      match presentString notes with
      | some n => some n
      | none => e.hospitalNotes }

/-- `PUT` of the hospital emergencies route: write any requested valid
status. -/
def hospitalUpdateStatus (requestUser : Option RequestUser)
    (emergencyId : Option String) (statusStr : Option String)
    (bedType notes : Option String) (now : Nat) (db : List Emergency) :
    AcceptResponse × List Emergency :=
  match requestUser with
  | none => ({ httpStatus := 401, error := some "Unauthorized" }, db)
  | some u =>
    if u.role ≠ Role.hospital then
      ({ httpStatus := 401, error := some "Unauthorized" }, db)
    else
      match emergencyId, presentString statusStr with
      | some eid, some sStr =>
        match parseStatus sStr with
        | none => ({ httpStatus := 400, error := some "Invalid status" }, db)
        | some s =>
          match findById db eid with
          | none => ({ httpStatus := 404, error := some "Emergency not found" }, db)
          | some e =>
            let updated := hospitalStatusWrite s bedType notes now e
            ({ httpStatus := 200, success := some true
               status := some updated.status },
             updateById db eid (hospitalStatusWrite s bedType notes now))
      | _, _ =>
        ({ httpStatus := 400
           error := some "Emergency ID and status are required" }, db)

/-! ## C1 and C2: terminal state and status monotonicity -/

/-- Concrete completed emergency used by counterexample runs. -/
def completedEmergency : Emergency :=
  { id := "E1", patientId := "P1", status := Status.completed
    patientLat := 20, patientLng := 20, address := "old address"
    symptoms := none, severityScore := some 50, aiAssessment := none
    assignedHospitalId := some "H1", assignedDriverId := some "D1"
    driverLat := some 21, driverLng := some 21
    driverLastLocationUpdate := some 1000
    distanceKm := some 5, etaMinutes := some 5
    assignedBedType := none, hospitalNotes := none
    triggeredAt := 0, acceptedAt := some 1, arrivedAt := some 2
    completedAt := some 3 }

/-- C1 (counterexample): an `updatePatientLocation` call against a completed
emergency succeeds and echoes the terminal state, yet the persisted
`patientLat` changes from 20 to 30 — the call is not a no-op on the location
fields, contrary to the claim. -/
theorem c1_counterexample :
    completedEmergency.status = Status.completed ∧
    completedEmergency.patientLat = 20 ∧
    (patchPatientLocation (some ⟨"P1", Role.patient⟩) (some "E1")
        (some { lat := some 30, lng := some 31, address := some "new" })
        [completedEmergency]).1.httpStatus = 200 ∧
    (patchPatientLocation (some ⟨"P1", Role.patient⟩) (some "E1")
        (some { lat := some 30, lng := some 31, address := some "new" })
        [completedEmergency]).1.statusEcho = some Status.completed ∧
    ((findById (patchPatientLocation (some ⟨"P1", Role.patient⟩) (some "E1")
        (some { lat := some 30, lng := some 31, address := some "new" })
        [completedEmergency]).2 "E1").map Emergency.patientLat) = some 30 := by
  decide

theorem status_patientLocationWrite (lat lng : Rat) (addr : Option String)
    (x : Emergency) :
    (patientLocationWrite lat lng addr x).status = x.status ∧
    (patientLocationWrite lat lng addr x).patientLat = lat ∧
    (patientLocationWrite lat lng addr x).patientLng = lng :=
  ⟨rfl, rfl, rfl⟩

/-- C1 (amended): against a completed emergency, `updatePatientLocation`
succeeds, echoes the bare terminal `completed` status and leaves the status
unchanged, but it does overwrite the patient location fields; and
`reportDriverLocation` is not guarded at all: the throttle never suppresses
its write there (the derived status differs from `completed`), so it
overwrites the driver location fields and moves the status to the derived
`en_route`/`arrived` value. -/
theorem c1_amended :
    (∀ (uid eid : String) (lat lng : Rat) (addr : Option String)
        (db : List Emergency) (e : Emergency),
      db.find? (fun x => x.id == eid && x.patientId == uid) = some e →
      e.status = Status.completed →
      patchPatientLocation (some ⟨uid, Role.patient⟩) (some eid)
          (some { lat := some lat, lng := some lng, address := addr }) db =
        ({ httpStatus := 200, success := some true
           statusEcho := some Status.completed },
         updateById db eid (patientLocationWrite lat lng addr))) ∧
    (∀ (dist : Rat → Rat → Rat → Rat → Rat) (uid eid : String)
        (lat lng : Rat) (now : Nat) (db : List Emergency) (e : Emergency),
      db.find? (fun x => x.id == eid && x.assignedDriverId == some uid) = some e →
      e.status = Status.completed →
      ¬(lat < -90 ∨ lat > 90 ∨ lng < -180 ∨ lng > 180) →
      (postDriverLocation dist (some ⟨uid, Role.driver⟩) (some eid)
          (some lat) (some lng) now db).2 =
        updateById db eid (driverLocationWrite lat lng now
          (dist lat lng e.patientLat e.patientLng)
          (calculateETA (dist lat lng e.patientLat e.patientLng))
          (pdlNextStatus (dist lat lng e.patientLat e.patientLng))) ∧
      pdlNextStatus (dist lat lng e.patientLat e.patientLng) ≠ Status.completed) := by
  constructor
  · intro uid eid lat lng addr db e hfind hc
    simp only [patchPatientLocation]
    rw [if_neg (by simp : ¬(RequestUser.mk uid Role.patient).role ≠ Role.patient)]
    simp only [hfind]
    rw [if_pos (show (patientLocationWrite lat lng addr e).status = Status.completed from hc)]
  · intro dist uid eid lat lng now db e hfind hc hrange
    have hne : pdlNextStatus (dist lat lng e.patientLat e.patientLng) ≠ Status.completed := by
      unfold pdlNextStatus
      split <;> simp
    refine ⟨?_, hne⟩
    rw [postDriverLocation_found dist uid eid lat lng now db e hfind hrange,
      if_neg (fun hsk => hne (by rw [← hsk.2.2]; exact hc))]

/-- Witness for C1 (amended): the concrete completed-emergency run, produced
by the amended theorem itself. -/
theorem c1_witness :
    patchPatientLocation (some ⟨"P1", Role.patient⟩) (some "E1")
        (some { lat := some 30, lng := some 31, address := some "new" })
        [completedEmergency] =
      ({ httpStatus := 200, success := some true
         statusEcho := some Status.completed },
       updateById [completedEmergency] "E1"
         (patientLocationWrite 30 31 (some "new"))) :=
  c1_amended.1 "P1" "E1" 30 31 (some "new") [completedEmergency]
    completedEmergency (by decide) (by decide)

/-- C2 (counterexample): a hospital accept action against a completed
emergency sets its status back to `assigned`, a regression the claimed
ordering forbids. -/
theorem c2_counterexample :
    completedEmergency.status = Status.completed ∧
    statusAfter (acceptCase (some ⟨"H2", Role.hospital⟩) (some "E1") 5000
        [completedEmergency]).2 "E1" = some Status.assigned ∧
    specAllowedStatusStep Status.completed Status.assigned = false := by
  decide

theorem specAllowedStatusStep_progress (s : Status) (hs : s ≠ Status.completed) :
    specAllowedStatusStep s Status.en_route = true ∧
    specAllowedStatusStep s Status.arrived = true ∧
    specAllowedStatusStep s Status.completed = true ∧
    specAllowedStatusStep s s = true := by
  cases s with
  | pending => decide
  | assigned => decide
  | en_route => decide
  | arrived => decide
  | completed => exact absurd rfl hs

/-- C2 (amended): the monotonicity invariant is not enforced globally.  What
holds: a driver status action with a recognized (or absent) `action` and no
raw `status` body never regresses a non-completed emergency except the
permitted `arrived`/`en_route` alternation, and the status a driver location
report derives is always an allowed step from a non-completed status.  What
fails: the hospital accept action forces `assigned` and the hospital status
update writes any requested valid status, both regardless of the current
status, so regressions (e.g. from `completed`) are possible. -/
theorem c2_amended :
    (∀ (uid eid : String) (action : Option String) (now : Nat)
        (db : List Emergency) (e : Emergency),
      db.find? (fun x => x.id == eid && x.assignedDriverId == some uid) = some e →
      e.status ≠ Status.completed →
      (driverStatusAction (some ⟨uid, Role.driver⟩) (some eid) none action now db).2 =
          updateById db eid (driverActionWrite action none now) ∧
        specAllowedStatusStep e.status (driverActionWrite action none now e).status = true) ∧
    (∀ (s : Status) (d : Rat), s ≠ Status.completed →
      specAllowedStatusStep s (pdlNextStatus d) = true) ∧
    (∀ (uid eid : String) (now : Nat) (db : List Emergency) (e : Emergency),
      findById db eid = some e →
      (acceptCase (some ⟨uid, Role.hospital⟩) (some eid) now db).2 =
          updateById db eid (acceptWrite uid now) ∧
        statusAfter (acceptCase (some ⟨uid, Role.hospital⟩) (some eid) now db).2 eid =
          some Status.assigned) ∧
    (∀ (uid eid sStr : String) (s : Status) (bedType notes : Option String)
        (now : Nat) (db : List Emergency) (e : Emergency),
      sStr ≠ "" → parseStatus sStr = some s → findById db eid = some e →
      (hospitalUpdateStatus (some ⟨uid, Role.hospital⟩) (some eid) (some sStr)
          bedType notes now db).2 =
          updateById db eid (hospitalStatusWrite s bedType notes now) ∧
        statusAfter (hospitalUpdateStatus (some ⟨uid, Role.hospital⟩) (some eid)
          (some sStr) bedType notes now db).2 eid = some s) := by
  refine ⟨?_, ?_, ?_, ?_⟩
  · intro uid eid action now db e hfind hstat
    constructor
    · simp only [driverStatusAction]
      rw [if_neg (by simp : ¬(RequestUser.mk uid Role.driver).role ≠ Role.driver)]
      rw [hfind]
    · obtain ⟨h1, h2, h3, h4⟩ := specAllowedStatusStep_progress e.status hstat
      unfold driverActionWrite
      by_cases ha1 : action = some "patient_loaded"
      · rw [if_pos ha1]; exact h1
      · rw [if_neg ha1]
        by_cases ha2 : action = some "arrived_hospital"
        · rw [if_pos ha2]; exact h2
        · rw [if_neg ha2]
          by_cases ha3 : action = some "handover_complete"
          · rw [if_pos ha3]; exact h3
          · rw [if_neg ha3]; exact h4
  · intro s d hs
    unfold pdlNextStatus
    obtain ⟨h1, h2, _, _⟩ := specAllowedStatusStep_progress s hs
    split
    · exact h2
    · exact h1
  · intro uid eid now db e hfind
    have hrun : acceptCase (some ⟨uid, Role.hospital⟩) (some eid) now db =
        ({ httpStatus := 200, success := some true
           status := some (acceptWrite uid now e).status
           acceptedAt := (acceptWrite uid now e).acceptedAt },
         updateById db eid (acceptWrite uid now)) := by
      simp only [acceptCase]
      rw [if_neg (by simp : ¬(RequestUser.mk uid Role.hospital).role ≠ Role.hospital)]
      rw [hfind]
    refine ⟨by rw [hrun], ?_⟩
    rw [hrun]
    unfold statusAfter
    rw [findById_updateById db eid (acceptWrite uid now) e (fun _ => rfl) hfind]
    rfl
  · intro uid eid sStr s bedType notes now db e hne hparse hfind
    have hpres : presentString (some sStr) = some sStr := by
      simp [presentString, hne]
    have hrun : hospitalUpdateStatus (some ⟨uid, Role.hospital⟩) (some eid)
        (some sStr) bedType notes now db =
        ({ httpStatus := 200, success := some true
           status := some (hospitalStatusWrite s bedType notes now e).status },
         updateById db eid (hospitalStatusWrite s bedType notes now)) := by
      simp only [hospitalUpdateStatus]
      rw [if_neg (by simp : ¬(RequestUser.mk uid Role.hospital).role ≠ Role.hospital)]
      simp only [hpres, hparse, hfind]
    refine ⟨by rw [hrun], ?_⟩
    rw [hrun]
    unfold statusAfter
    rw [findById_updateById db eid (hospitalStatusWrite s bedType notes now) e
      (fun _ => rfl) hfind]
    rfl

/-- Witness for C2 (amended): concrete runs of the driver action part and
the accept part, produced by the amended theorem itself. -/
theorem c2_witness :
    ((driverStatusAction (some ⟨"D1", Role.driver⟩) (some "E1") none
        (some "patient_loaded") 3000 [c7Emergency]).2 =
      updateById [c7Emergency] "E1"
        (driverActionWrite (some "patient_loaded") none 3000) ∧
      specAllowedStatusStep c7Emergency.status
        (driverActionWrite (some "patient_loaded") none 3000 c7Emergency).status = true) ∧
    statusAfter (acceptCase (some ⟨"H1", Role.hospital⟩) (some "E1") 3000
        [c7Emergency]).2 "E1" = some Status.assigned :=
  ⟨(c2_amended.1 "D1" "E1" (some "patient_loaded") 3000 [c7Emergency]
      c7Emergency (by decide) (by decide)),
   (c2_amended.2.2.1 "H1" "E1" 3000 [c7Emergency] c7Emergency (by decide)).2⟩

/-! ## SOS trigger `POST` (`create`) -/

/-- Message of the fallback-hospital branch of the SOS route. -/
def msgFallbackHospital : String :=
  "Hospitals are missing location coordinates, so the emergency was assigned without distance ranking. Please ensure hospitals set their locationLat/locationLng."

/-- Message of the no-license branch of the SOS route. -/
def msgNoLicense : String :=
  "Nearest hospital has no license on file, so no ambulance can be assigned automatically."

/-- Message of the no-matching-ambulance branch of the SOS route (the source
ternary picks this arm because the license is non-null in that branch). -/
def msgNoAmbulance : String :=
  "No matching ambulances available for this hospital license. Emergency dispatched manually."

/-- Response of the SOS trigger `POST`, flattened over its branch payloads
(absent fields are `none`; the nested `hospital` object repeats the flat
fields and is not duplicated here). -/
structure SosResponse where
  httpStatus : Nat
  error : Option String := none
  sosId : Option String := none
  ambulanceDispatched : Option Bool := none
  message : Option String := none
  hospitalAssigned : Option String := none
  hospitalLicenseNumber : Option String := none
  hospitalAddress : Option String := none
  eta : Option Int := none
  distanceKm : Option Rat := none
  driverId : Option String := none
  driverEmail : Option String := none
  driverName : Option String := none
  severityScore : Option Nat := none
  priority : Option String := none
deriving DecidableEq, Repr

/-- The `findFirst` fallback of the SOS route: earliest-registered active
hospital (`orderBy createdAt asc`). -/
def fallbackHospital (users : List User) : Option User :=
  (insertionSortBy (fun a b => decide (a.createdAt ≤ b.createdAt))
    (users.filter (fun u => u.role == Role.hospital && u.isActive))).head?

/-- The record `prisma.emergency.create` persists before dispatch: status
`pending`, the patient location, defaulted address and null telemetry. -/
def createdEmergency (patientId : String) (lat lng : Rat)
    (address symptoms : Option String) (now : Nat) (newId : String) : Emergency :=
  { id := newId, patientId := patientId, status := Status.pending
    patientLat := lat, patientLng := lng
    address :=
      match presentString address with
      | some a => a
      | none => "Location not available"
    symptoms := presentString symptoms
    severityScore := none, aiAssessment := none
    assignedHospitalId := none, assignedDriverId := none
    driverLat := none, driverLng := none, driverLastLocationUpdate := none
    distanceKm := none, etaMinutes := none
    assignedBedType := none, hospitalNotes := none
    triggeredAt := now, acceptedAt := none, arrivedAt := none
    completedAt := none }

/-- Severity persisted by the SOS route: the scorer result when available,
else the fixed default 50. -/
def severityOf (ai : Option AiResult) : Nat :=
  match ai with
  | some r => r.severityScore
  | none => 50

/-- Assessment persisted by the SOS route: the scorer text when available,
else the fixed default. -/
def assessmentOf (ai : Option AiResult) : String :=
  match ai with
  | some r => r.assessment
  | none => "Symptoms received, awaiting analysis"

/-- The hospital-only update of the SOS route (fallback, no-license and
no-ambulance branches): assign the hospital and persist severity; the status
field is not part of the update, so it stays `pending`. -/
def hospitalOnlyUpdate (hospitalId : String) (sev : Nat) (assess : String)
    (e : Emergency) : Emergency :=
  { e with
    assignedHospitalId := some hospitalId
    severityScore := some sev
    aiAssessment := some assess }

/-- The full dispatch update of the SOS route: hospital, driver, severity,
provisional telemetry and status `assigned`. -/
def dispatchUpdate (hospitalId driverId : String) (sev : Nat) (assess : String)
    (distanceKm : Option Rat) (etaMinutes : Option Int) (e : Emergency) :
    Emergency :=
  { e with
    assignedHospitalId := some hospitalId
    assignedDriverId := some driverId
    severityScore := some sev
    aiAssessment := some assess
    etaMinutes := etaMinutes
    distanceKm := distanceKm
    status := Status.assigned }

/-- `POST` of the SOS trigger route (`create`): validate, create the pending
record, absorb the severity scorer result, pick hospital then ambulance and
persist whichever were found, answering with the branch payload.  The second
component is the persisted emergency row, `none` when validation failed
before the create. -/
def createEmergency (dist : Rat → Rat → Rat → Rat → Rat)
    (requestUser : Option RequestUser) (location : Option LocationIn)
    (symptoms : Option String) (ai : Option AiResult) (users : List User)
    (now : Nat) (newId : String) : SosResponse × Option Emergency :=
  match requestUser with
  | none => ({ httpStatus := 401, error := some "Unauthorized" }, none)
  | some u =>
    if u.role ≠ Role.patient then
      ({ httpStatus := 401, error := some "Unauthorized" }, none)
    else
      match location with
      | none => ({ httpStatus := 400, error := some "Invalid location data" }, none)
      | some loc =>
        match loc.lat, loc.lng with
        | some lat, some lng =>
          let created := createdEmergency u.id lat lng loc.address symptoms now newId
          let sev := severityOf ai
          let assess := assessmentOf ai
          match findNearestHospitals dist users lat lng 5 with
          | [] =>
            match fallbackHospital users with
            | none =>
              ({ httpStatus := 503, error := some "No hospitals available" },
               some created)
            | some fb =>
              ({ httpStatus := 202
                 sosId := some newId
                 ambulanceDispatched := some false
                 message := some msgFallbackHospital
                 hospitalAssigned := some fb.name
                 hospitalLicenseNumber := presentString fb.licenseNumber
                 hospitalAddress := fb.address },
               some (hospitalOnlyUpdate fb.id sev assess created))
          | nearest :: _ =>
            match presentString nearest.user.licenseNumber with
            | none =>
              ({ httpStatus := 202
                 sosId := some newId
                 ambulanceDispatched := some false
                 message := some msgNoLicense
                 hospitalAssigned := some nearest.user.name
                 hospitalAddress := nearest.user.address },
               some (hospitalOnlyUpdate nearest.user.id sev assess created))
            | some license =>
              match findNearestAmbulances dist users lat lng 3 (some license) with
              | [] =>
                ({ httpStatus := 202
                   sosId := some newId
                   ambulanceDispatched := some false
                   message := some msgNoAmbulance
                   hospitalAssigned := some nearest.user.name
                   hospitalLicenseNumber := some license
                   hospitalAddress := nearest.user.address },
                 some (hospitalOnlyUpdate nearest.user.id sev assess created))
              | amb :: _ =>
                let distanceKm :=
                  match amb.user.locationLat, amb.user.locationLng with
                  | some dlat, some dlng => some (dist dlat dlng lat lng)
                  | _, _ => none
                let etaMinutes := distanceKm.map (fun d => calculateETA d)
                ({ httpStatus := 201
                   sosId := some newId
                   ambulanceDispatched := some true
                   eta := etaMinutes
                   distanceKm := distanceKm
                   hospitalAssigned := some nearest.user.name
                   hospitalLicenseNumber := some license
                   hospitalAddress := nearest.user.address
                   driverId := some amb.user.id
                   driverEmail := some amb.user.email
                   driverName := some amb.user.name
                   severityScore := some sev
                   priority := some "medium" },
                 some (dispatchUpdate nearest.user.id amb.user.id sev assess
                   distanceKm etaMinutes created))
        | _, _ => ({ httpStatus := 400, error := some "Invalid location data" }, none)

/-- The spec taxonomy of dispatch outcomes; `fallback_hospital` is the
degraded no-location-data outcome the source adds to the four of the spec. -/
inductive Outcome
  | dispatched
  | hospital_only_no_license
  | hospital_only_no_driver
  | fallback_hospital
  | no_hospitals_available
deriving DecidableEq, Repr

/-- Spec-side decoder (refinement direction, following the spec words about
a machine-readable outcome): which outcome a response denotes, read off the
HTTP status, the dispatch flag and the message string. -/
def specOutcomeOfResponse (r : SosResponse) : Option Outcome :=
  if r.httpStatus = 503 ∧ r.error = some "No hospitals available" then
    some Outcome.no_hospitals_available
  else if r.httpStatus = 201 ∧ r.ambulanceDispatched = some true then
    some Outcome.dispatched
  else if r.httpStatus = 202 ∧ r.message = some msgNoLicense then
    some Outcome.hospital_only_no_license
  else if r.httpStatus = 202 ∧ r.message = some msgNoAmbulance then
    some Outcome.hospital_only_no_driver
  else if r.httpStatus = 202 ∧ r.message = some msgFallbackHospital then
    some Outcome.fallback_hospital
  else none

/-- The branch the SOS route executes, as a function of the candidate
state. -/
def dispatchBranch (dist : Rat → Rat → Rat → Rat → Rat) (users : List User)
    (lat lng : Rat) : Outcome :=
  match findNearestHospitals dist users lat lng 5 with
  | [] =>
    match fallbackHospital users with
    | none => Outcome.no_hospitals_available
    | some _ => Outcome.fallback_hospital
  | nearest :: _ =>
    match presentString nearest.user.licenseNumber with
    | none => Outcome.hospital_only_no_license
    | some license =>
      match findNearestAmbulances dist users lat lng 3 (some license) with
      | [] => Outcome.hospital_only_no_driver
      | _ :: _ => Outcome.dispatched

/-- All string data of a response payload, for the outcome-code check. -/
def responseStrings (r : SosResponse) : List String :=
  [r.error, r.sosId, r.message, r.hospitalAssigned, r.hospitalLicenseNumber,
    r.hospitalAddress, r.driverId, r.driverEmail, r.driverName,
    r.priority].filterMap id

/-- Concrete licensed-less hospital for counterexample runs. -/
def noLicenseHospital : User :=
  { id := "H1", role := Role.hospital, isActive := true
    name := "General Hospital", email := "gh", phone := "123"
    licenseNumber := none, address := some "1 Hospital Rd"
    vehiclePlate := none, locationLat := some 10, locationLng := some 10
    createdAt := 1 }

/-- C6 (counterexample): the no-license run answers 202 with a human message
and the dispatch flag, but no field of the response carries any of the four
enumerated outcome-code values — the claimed machine-readable outcome code
does not exist in the payload. -/
theorem c6_counterexample :
    (∀ s ∈ responseStrings (createEmergency witnessDist
        (some ⟨"P1", Role.patient⟩)
        (some { lat := some 10, lng := some 10, address := none }) none none
        [noLicenseHospital] 0 "E9").1,
      s ∉ (["dispatched", "hospital_only_no_license", "hospital_only_no_driver",
        "no_hospitals_available"] : List String)) ∧
    (createEmergency witnessDist (some ⟨"P1", Role.patient⟩)
        (some { lat := some 10, lng := some 10, address := none }) none none
        [noLicenseHospital] 0 "E9").1.httpStatus = 202 := by
  decide

/-- C6 (amended): the SOS route reports no single outcome-code field; the
four outcomes (plus the fallback-hospital degraded outcome) are nonetheless
mutually distinguishable from the response — 503 with the hard error for no
hospitals at all, distinct from the 202 partial outcomes which carry
distinct messages, distinct from the 201 dispatched outcome — so decoding
the response recovers exactly the executed branch. -/
theorem c6_amended (dist : Rat → Rat → Rat → Rat → Rat) (uid newId : String)
    (lat lng : Rat) (addr symptoms : Option String) (ai : Option AiResult)
    (users : List User) (now : Nat) :
    specOutcomeOfResponse (createEmergency dist (some ⟨uid, Role.patient⟩)
        (some { lat := some lat, lng := some lng, address := addr })
        symptoms ai users now newId).1 =
      some (dispatchBranch dist users lat lng) := by
  simp only [createEmergency]
  rw [if_neg (by simp : ¬(RequestUser.mk uid Role.patient).role ≠ Role.patient)]
  unfold dispatchBranch
  cases hH : findNearestHospitals dist users lat lng 5 with
  | nil =>
    simp only [hH]
    cases hF : fallbackHospital users with
    | none =>
      simp [specOutcomeOfResponse]
    | some fb =>
      simp [specOutcomeOfResponse, msgFallbackHospital, msgNoLicense, msgNoAmbulance]
  | cons nearest rest =>
    simp only [hH]
    cases hL : presentString nearest.user.licenseNumber with
    | none =>
      simp [specOutcomeOfResponse, msgFallbackHospital, msgNoLicense, msgNoAmbulance]
    | some license =>
      simp only [hL]
      cases hA : findNearestAmbulances dist users lat lng 3 (some license) with
      | nil =>
        simp [specOutcomeOfResponse, msgFallbackHospital, msgNoLicense, msgNoAmbulance]
      | cons amb rest2 =>
        simp [specOutcomeOfResponse]

/-- C5 (counterexample): a create in which the matcher returns a hospital but
no driver (nearest hospital has no license) persists the emergency with
status `pending` and the hospital assigned — not with status `assigned` as
the claim states. -/
theorem c5_counterexample :
    (createEmergency witnessDist (some ⟨"P1", Role.patient⟩)
        (some { lat := some 10, lng := some 10, address := none }) none none
        [noLicenseHospital] 0 "E9").2.map Emergency.status =
      some Status.pending ∧
    (createEmergency witnessDist (some ⟨"P1", Role.patient⟩)
        (some { lat := some 10, lng := some 10, address := none }) none none
        [noLicenseHospital] 0 "E9").2.map Emergency.assignedHospitalId =
      some (some "H1") ∧
    (createEmergency witnessDist (some ⟨"P1", Role.patient⟩)
        (some { lat := some 10, lng := some 10, address := none }) none none
        [noLicenseHospital] 0 "E9").2.map Emergency.status ≠
      some Status.assigned := by
  decide

/-- C5 (amended): a validated create always persists a record; its status is
`assigned` exactly in the full-dispatch outcome (201) — in the three
hospital-only outcomes (202) it stays `pending` with the hospital assigned,
and in the no-hospitals outcome (503) it stays `pending` with no hospital. -/
theorem c5_amended (dist : Rat → Rat → Rat → Rat → Rat) (uid newId : String)
    (lat lng : Rat) (addr symptoms : Option String) (ai : Option AiResult)
    (users : List User) (now : Nat) :
    ∃ e, (createEmergency dist (some ⟨uid, Role.patient⟩)
        (some { lat := some lat, lng := some lng, address := addr })
        symptoms ai users now newId).2 = some e ∧
      (e.status = Status.assigned ↔
        (createEmergency dist (some ⟨uid, Role.patient⟩)
          (some { lat := some lat, lng := some lng, address := addr })
          symptoms ai users now newId).1.httpStatus = 201) ∧
      ((createEmergency dist (some ⟨uid, Role.patient⟩)
          (some { lat := some lat, lng := some lng, address := addr })
          symptoms ai users now newId).1.httpStatus = 202 →
        e.status = Status.pending ∧ e.assignedHospitalId.isSome = true) ∧
      ((createEmergency dist (some ⟨uid, Role.patient⟩)
          (some { lat := some lat, lng := some lng, address := addr })
          symptoms ai users now newId).1.httpStatus = 503 →
        e.status = Status.pending ∧ e.assignedHospitalId = none) := by
  simp only [createEmergency]
  rw [if_neg (by simp : ¬(RequestUser.mk uid Role.patient).role ≠ Role.patient)]
  cases hH : findNearestHospitals dist users lat lng 5 with
  | nil =>
    simp only [hH]
    cases hF : fallbackHospital users with
    | none =>
      refine ⟨createdEmergency uid lat lng addr symptoms now newId, rfl, ?_, ?_, ?_⟩
      · simp [createdEmergency]
      · intro h; simp at h
      · intro _; exact ⟨rfl, rfl⟩
    | some fb =>
      refine ⟨hospitalOnlyUpdate fb.id (severityOf ai) (assessmentOf ai)
        (createdEmergency uid lat lng addr symptoms now newId), rfl, ?_, ?_, ?_⟩
      · simp [hospitalOnlyUpdate, createdEmergency]
      · intro _; exact ⟨rfl, rfl⟩
      · intro h; simp at h
  | cons nearest rest =>
    simp only [hH]
    cases hL : presentString nearest.user.licenseNumber with
    | none =>
      refine ⟨hospitalOnlyUpdate nearest.user.id (severityOf ai) (assessmentOf ai)
        (createdEmergency uid lat lng addr symptoms now newId), rfl, ?_, ?_, ?_⟩
      · simp [hospitalOnlyUpdate, createdEmergency]
      · intro _; exact ⟨rfl, rfl⟩
      · intro h; simp at h
    | some license =>
      simp only [hL]
      cases hA : findNearestAmbulances dist users lat lng 3 (some license) with
      | nil =>
        refine ⟨hospitalOnlyUpdate nearest.user.id (severityOf ai) (assessmentOf ai)
          (createdEmergency uid lat lng addr symptoms now newId), rfl, ?_, ?_, ?_⟩
        · simp [hospitalOnlyUpdate, createdEmergency]
        · intro _; exact ⟨rfl, rfl⟩
        · intro h; simp at h
      | cons amb rest2 =>
        refine ⟨_, rfl, ?_, ?_, ?_⟩
        · simp [dispatchUpdate]
        · intro h; simp at h
        · intro h; simp at h

/-- Witness for C5 (amended): the concrete no-license run, produced by the
amended theorem itself. -/
theorem c5_witness :
    ∃ e, (createEmergency witnessDist (some ⟨"P1", Role.patient⟩)
        (some { lat := some 10, lng := some 10, address := none }) none none
        [noLicenseHospital] 0 "E9").2 = some e ∧
      (e.status = Status.assigned ↔
        (createEmergency witnessDist (some ⟨"P1", Role.patient⟩)
          (some { lat := some 10, lng := some 10, address := none }) none none
          [noLicenseHospital] 0 "E9").1.httpStatus = 201) ∧
      ((createEmergency witnessDist (some ⟨"P1", Role.patient⟩)
          (some { lat := some 10, lng := some 10, address := none }) none none
          [noLicenseHospital] 0 "E9").1.httpStatus = 202 →
        e.status = Status.pending ∧ e.assignedHospitalId.isSome = true) ∧
      ((createEmergency witnessDist (some ⟨"P1", Role.patient⟩)
          (some { lat := some 10, lng := some 10, address := none }) none none
          [noLicenseHospital] 0 "E9").1.httpStatus = 503 →
        e.status = Status.pending ∧ e.assignedHospitalId = none) :=
  c5_amended witnessDist "P1" "E9" 10 10 none none none [noLicenseHospital] 0

/-- Witness for C6 (amended): the concrete no-license run decodes to the
no-license outcome, produced by the amended theorem itself. -/
theorem c6_witness :
    specOutcomeOfResponse (createEmergency witnessDist
        (some ⟨"P1", Role.patient⟩)
        (some { lat := some 10, lng := some 10, address := none }) none none
        [noLicenseHospital] 0 "E9").1 =
      some (dispatchBranch witnessDist [noLicenseHospital] 10 10) :=
  c6_amended witnessDist "P1" "E9" 10 10 none none none [noLicenseHospital] 0

/-- C9 (counterexample): a create with latitude 200 — far outside the valid
[-90, 90] range — is not rejected: the emergency record is persisted with
`patientLat = 200`, so out-of-range coordinates do mutate state. -/
theorem c9_counterexample :
    (createEmergency witnessDist (some ⟨"P1", Role.patient⟩)
        (some { lat := some 200, lng := some 10, address := none }) none none
        [noLicenseHospital] 0 "E9").2.map Emergency.patientLat =
      some 200 ∧
    (createEmergency witnessDist (some ⟨"P1", Role.patient⟩)
        (some { lat := some 200, lng := some 10, address := none }) none none
        [noLicenseHospital] 0 "E9").1.httpStatus ≠ 400 := by
  decide

/-- C9 (amended): only `reportDriverLocation` range-checks coordinates (and
it rejects before any write); the SOS create and `updatePatientLocation`
validate only presence/finiteness, so any supplied rational coordinates —
out of range or not — are accepted and persisted. -/
theorem c9_amended :
    (∀ (dist : Rat → Rat → Rat → Rat → Rat) (uid eid : String)
        (lat lng : Rat) (now : Nat) (db : List Emergency),
      (lat < -90 ∨ lat > 90 ∨ lng < -180 ∨ lng > 180) →
      postDriverLocation dist (some ⟨uid, Role.driver⟩) (some eid)
          (some lat) (some lng) now db =
        ({ httpStatus := 400, error := some "Invalid coordinates" }, db)) ∧
    (∀ (dist : Rat → Rat → Rat → Rat → Rat) (uid newId : String)
        (lat lng : Rat) (addr symptoms : Option String) (ai : Option AiResult)
        (users : List User) (now : Nat),
      (createEmergency dist (some ⟨uid, Role.patient⟩)
          (some { lat := some lat, lng := some lng, address := addr })
          symptoms ai users now newId).2.map Emergency.patientLat = some lat ∧
      (createEmergency dist (some ⟨uid, Role.patient⟩)
          (some { lat := some lat, lng := some lng, address := addr })
          symptoms ai users now newId).2.map Emergency.patientLng = some lng) ∧
    (∀ (uid eid : String) (lat lng : Rat) (addr : Option String)
        (db : List Emergency) (e : Emergency),
      db.find? (fun x => x.id == eid && x.patientId == uid) = some e →
      (patchPatientLocation (some ⟨uid, Role.patient⟩) (some eid)
          (some { lat := some lat, lng := some lng, address := addr }) db).2 =
        updateById db eid (patientLocationWrite lat lng addr)) := by
  refine ⟨?_, ?_, ?_⟩
  · intro dist uid eid lat lng now db hrange
    simp only [postDriverLocation]
    rw [if_neg (by simp : ¬(RequestUser.mk uid Role.driver).role ≠ Role.driver)]
    rw [if_pos hrange]
  · intro dist uid newId lat lng addr symptoms ai users now
    simp only [createEmergency]
    rw [if_neg (by simp : ¬(RequestUser.mk uid Role.patient).role ≠ Role.patient)]
    cases hH : findNearestHospitals dist users lat lng 5 with
    | nil =>
      simp only [hH]
      cases hF : fallbackHospital users with
      | none => exact ⟨rfl, rfl⟩
      | some fb => exact ⟨rfl, rfl⟩
    | cons nearest rest =>
      simp only [hH]
      cases hL : presentString nearest.user.licenseNumber with
      | none => exact ⟨rfl, rfl⟩
      | some license =>
        simp only [hL]
        cases hA : findNearestAmbulances dist users lat lng 3 (some license) with
        | nil => exact ⟨rfl, rfl⟩
        | cons amb rest2 => exact ⟨rfl, rfl⟩
  · intro uid eid lat lng addr db e hfind
    simp only [patchPatientLocation]
    rw [if_neg (by simp : ¬(RequestUser.mk uid Role.patient).role ≠ Role.patient)]
    simp only [hfind]
    split <;> rfl

/-- Witness for C9 (amended): a driver report at latitude 200 is rejected
with the database unchanged, by the amended theorem itself. -/
theorem c9_witness :
    postDriverLocation witnessDist (some ⟨"D1", Role.driver⟩) (some "E1")
        (some 200) (some 10) 0 [c7Emergency] =
      ({ httpStatus := 400, error := some "Invalid coordinates" },
       [c7Emergency]) :=
  c9_amended.1 witnessDist "D1" "E1" 200 10 0 [c7Emergency] (by decide)

/-! ## C3: the driver-hospital license invariant -/

/-- The assignment invariant of the spec: an assigned driver implies an
assigned hospital, both resolvable, with equal (present) license numbers. -/
def licenseInvariantB (users : List User) (e : Emergency) : Bool :=
  match e.assignedDriverId with
  | none => true
  | some did =>
    match e.assignedHospitalId with
    | none => false
    | some hid =>
      match findUser users did, findUser users hid with
      | some du, some hu =>
        du.licenseNumber == hu.licenseNumber && du.licenseNumber.isSome
      | _, _ => false

theorem presentString_eq_some (o : Option String) (l : String)
    (h : presentString o = some l) : o = some l := by
  cases o with
  | none => simp [presentString] at h
  | some s =>
    by_cases hs : s = ""
    · simp [presentString, hs] at h
    · simp [presentString, hs] at h
      rw [h]

theorem mem_findNearestHospitals (dist : Rat → Rat → Rat → Rat → Rat)
    (users : List User) (latitude longitude : Rat) (limit : Nat)
    (r : RankedHospital)
    (h : r ∈ findNearestHospitals dist users latitude longitude limit) :
    r.user ∈ users := by
  unfold findNearestHospitals at h
  have h1 := List.mem_of_mem_take h
  rw [mem_insertionSortBy] at h1
  obtain ⟨u, hu, hmap⟩ := List.mem_filterMap.mp h1
  have humem := (List.mem_filter.mp hu).1
  cases hla : u.locationLat with
  | none => rw [hla] at hmap; simp at hmap
  | some a =>
    cases hlb : u.locationLng with
    | none => rw [hla, hlb] at hmap; simp at hmap
    | some b =>
      rw [hla, hlb] at hmap
      obtain rfl := Option.some.inj hmap
      exact humem

/-- Users of the C3 counterexample: two differently licensed hospitals and a
driver linked to the first. -/
def hospitalA : User :=
  { id := "HA", role := Role.hospital, isActive := true, name := "Hospital A"
    email := "ha", phone := "1", licenseNumber := some "LA"
    address := some "1 A St", vehiclePlate := none
    locationLat := some 10, locationLng := some 10, createdAt := 1 }

/-- Second hospital of the C3 counterexample, license LB. -/
def hospitalB : User :=
  { id := "HB", role := Role.hospital, isActive := true, name := "Hospital B"
    email := "hb", phone := "2", licenseNumber := some "LB"
    address := some "2 B St", vehiclePlate := none
    locationLat := some 50, locationLng := some 50, createdAt := 2 }

/-- Driver of the C3 counterexample, linked to license LA. -/
def driverA : User :=
  { id := "DA", role := Role.driver, isActive := true, name := "Driver A"
    email := "da", phone := "3", licenseNumber := some "LA"
    address := none, vehiclePlate := some "KA01"
    locationLat := some 11, locationLng := some 11, createdAt := 3 }

/-- User table of the C3 counterexample. -/
def c3Users : List User := [hospitalA, hospitalB, driverA]

/-- C3 counterexample emergency: driver DA assigned together with its linked
hospital HA, so the invariant holds before the accept action. -/
def c3Emergency : Emergency :=
  { id := "E1", patientId := "P1", status := Status.assigned
    patientLat := 10, patientLng := 10, address := "somewhere"
    symptoms := none, severityScore := some 50, aiAssessment := none
    assignedHospitalId := some "HA", assignedDriverId := some "DA"
    driverLat := some 11, driverLng := some 11
    driverLastLocationUpdate := none
    distanceKm := none, etaMinutes := none
    assignedBedType := none, hospitalNotes := none
    triggeredAt := 0, acceptedAt := none, arrivedAt := none
    completedAt := none }

/-- C3 (counterexample): the license invariant holds, then hospital B (with a
different license) accepts the case; the accept action re-assigns the
hospital but leaves the driver in place, so the persisted record violates
the invariant — acceptCase does not preserve it, contrary to the claim. -/
theorem c3_counterexample :
    licenseInvariantB c3Users c3Emergency = true ∧
    ((findById (acceptCase (some ⟨"HB", Role.hospital⟩) (some "E1") 0
        [c3Emergency]).2 "E1").map (licenseInvariantB c3Users)) = some false := by
  decide

/-- C3 (amended): dispatch at creation establishes the invariant — whenever
the persisted record carries a driver, it also carries the hospital assigned
in the same update, and the ambulance search filtered on that hospital
license, so the licenses match; but the hospital accept action does not
preserve the invariant: it overwrites `assignedHospitalId` with the
accepting hospital while leaving `assignedDriverId` untouched and
unchecked. -/
theorem c3_amended :
    (∀ (dist : Rat → Rat → Rat → Rat → Rat) (uid newId : String)
        (lat lng : Rat) (addr symptoms : Option String) (ai : Option AiResult)
        (users : List User) (now : Nat),
      (users.map User.id).Nodup →
      ∀ e, (createEmergency dist (some ⟨uid, Role.patient⟩)
          (some { lat := some lat, lng := some lng, address := addr })
          symptoms ai users now newId).2 = some e →
        licenseInvariantB users e = true) ∧
    (∀ (hid : String) (now : Nat) (x : Emergency),
      (acceptWrite hid now x).assignedDriverId = x.assignedDriverId ∧
      (acceptWrite hid now x).assignedHospitalId = some hid) := by
  constructor
  · intro dist uid newId lat lng addr symptoms ai users now hnd e he
    rw [createEmergency] at he
    rw [if_neg (by simp : ¬(RequestUser.mk uid Role.patient).role ≠ Role.patient)] at he
    revert he
    cases hH : findNearestHospitals dist users lat lng 5 with
    | nil =>
      simp only [hH]
      cases hF : fallbackHospital users with
      | none =>
        intro he
        obtain rfl := Option.some.inj he
        rfl
      | some fb =>
        intro he
        obtain rfl := Option.some.inj he
        rfl
    | cons nearest rest =>
      simp only [hH]
      cases hL : presentString nearest.user.licenseNumber with
      | none =>
        intro he
        obtain rfl := Option.some.inj he
        rfl
      | some license =>
        simp only [hL]
        cases hA : findNearestAmbulances dist users lat lng 3 (some license) with
        | nil =>
          intro he
          obtain rfl := Option.some.inj he
          rfl
        | cons amb rest2 =>
          intro he
          obtain rfl := Option.some.inj he
          have hmemH : nearest.user ∈ users :=
            mem_findNearestHospitals dist users lat lng 5 nearest
              (by rw [hH]; exact List.mem_cons_self _ _)
          have hmemA := mem_findNearestAmbulances dist users lat lng 3 license amb
            (by rw [hA]; exact List.mem_cons_self _ _)
          have hlicH : nearest.user.licenseNumber = some license :=
            presentString_eq_some _ _ hL
          have hfu1 : findUser users amb.user.id = some amb.user :=
            findUser_self users amb.user hnd hmemA.1
          have hfu2 : findUser users nearest.user.id = some nearest.user :=
            findUser_self users nearest.user hnd hmemH
          simp [licenseInvariantB, dispatchUpdate, hfu1, hfu2, hmemA.2, hlicH]
  · intro hid now x
    exact ⟨rfl, rfl⟩

/-- Licensed hospital of the C3 witness scenario. -/
def licensedHospital : User :=
  { id := "HL", role := Role.hospital, isActive := true
    name := "Licensed Hospital", email := "lh", phone := "1"
    licenseNumber := some "L1", address := some "2 Care Way"
    vehiclePlate := none, locationLat := some 10, locationLng := some 10
    createdAt := 1 }

/-- Licensed driver of the C3 witness scenario, linked to license L1. -/
def licensedDriver : User :=
  { id := "DL", role := Role.driver, isActive := true, name := "Driver L"
    email := "dl", phone := "2", licenseNumber := some "L1", address := none
    vehiclePlate := some "KA02", locationLat := some 11, locationLng := some 11
    createdAt := 2 }

/-- Witness for C3 (amended): a concrete dispatched create satisfies the
invariant, by the amended theorem itself. -/
theorem c3_witness :
    licenseInvariantB [licensedHospital, licensedDriver]
      (dispatchUpdate "HL" "DL" (severityOf none) (assessmentOf none)
        (some (witnessDist 11 11 10 10))
        (some (calculateETA (witnessDist 11 11 10 10)))
        (createdEmergency "P1" 10 10 none none 0 "E9")) = true :=
  c3_amended.1 witnessDist "P1" "E9" 10 10 none none none
    [licensedHospital, licensedDriver] 0 (by decide)
    (dispatchUpdate "HL" "DL" (severityOf none) (assessmentOf none)
      (some (witnessDist 11 11 10 10))
      (some (calculateETA (witnessDist 11 11 10 10)))
      (createdEmergency "P1" 10 10 none none 0 "E9")) rfl

/-! ## Hospital feed `GET` (C4) -/

/-- The `where` clause of the hospital feed query: assigned to the hospital,
status equal to the filter — or not `completed` when no filter is given —
and visible either through an unexpired document or, with no documents at
all, through the one-hour window after the SOS. -/
def hospitalFeedWhere (now : Nat) (statusFilter : Option Status) (hid : String)
    (docs : List MedicalDocument) (e : Emergency) : Bool :=
  (e.assignedHospitalId == some hid) &&
  (match statusFilter with
   | some s => e.status == s
   | none => !(e.status == Status.completed)) &&
  (let eDocs := docs.filter (fun d => d.emergencyId == e.id)
   eDocs.any (fun d => decide (now < d.expiresAt)) ||
     (eDocs.isEmpty && decide (now - 3600000 ≤ e.triggeredAt)))

/-- The per-patient deduplication of the feed: keep the first (after the
descending sort, most recent) case per patient; a falsy patient id is
dropped. -/
def dedupeByPatient : List Emergency → List String → List Emergency
  | [], _ => []
  | e :: es, seen =>
    if e.patientId = "" then dedupeByPatient es seen
    else if e.patientId ∈ seen then dedupeByPatient es seen
    else e :: dedupeByPatient es (e.patientId :: seen)

/-- `GET` of the hospital emergencies route, reduced to the emergency list
it returns: filter by the `where` clause, order by `triggeredAt` descending,
paginate, deduplicate per patient. -/
def hospitalFeed (now : Nat) (statusFilter : Option Status) (hid : String)
    (limit offset : Nat) (docs : List MedicalDocument)
    (emergencies : List Emergency) : List Emergency :=
  let filtered := emergencies.filter (hospitalFeedWhere now statusFilter hid docs)
  let sorted :=
    insertionSortBy (fun a b => decide (b.triggeredAt ≤ a.triggeredAt)) filtered
  dedupeByPatient ((sorted.drop offset).take limit) []

theorem mem_dedupeByPatient (l : List Emergency) (seen : List String)
    (x : Emergency) (h : x ∈ dedupeByPatient l seen) : x ∈ l := by
  induction l generalizing seen with
  | nil => exact absurd h (by simp [dedupeByPatient])
  | cons e es ih =>
    by_cases h1 : e.patientId = ""
    · rw [dedupeByPatient, if_pos h1] at h
      exact List.mem_cons_of_mem _ (ih _ h)
    · rw [dedupeByPatient, if_neg h1] at h
      by_cases h2 : e.patientId ∈ seen
      · rw [if_pos h2] at h
        exact List.mem_cons_of_mem _ (ih _ h)
      · rw [if_neg h2] at h
        rcases List.mem_cons.mp h with rfl | hh
        · exact List.mem_cons_self _ _
        · exact List.mem_cons_of_mem _ (ih _ hh)

/-- Reference time of the C4 counterexample. -/
def c4Now : Nat := 10000000

/-- C4 counterexample emergency: completed two minutes ago, assigned to H1. -/
def c4Emergency : Emergency :=
  { id := "E4", patientId := "P4", status := Status.completed
    patientLat := 10, patientLng := 10, address := "x"
    symptoms := none, severityScore := some 50, aiAssessment := none
    assignedHospitalId := some "H1", assignedDriverId := none
    driverLat := none, driverLng := none, driverLastLocationUpdate := none
    distanceKm := none, etaMinutes := none
    assignedBedType := none, hospitalNotes := none
    triggeredAt := c4Now - 120000, acceptedAt := none, arrivedAt := none
    completedAt := some (c4Now - 60000) }

/-- C4 counterexample document: still live for another 100 seconds. -/
def c4Doc : MedicalDocument :=
  { id := "DOC1", emergencyId := "E4", url := "u", cloudinaryId := "c"
    expiresAt := c4Now + 100000, createdAt := c4Now - 120000 }

/-- C4 (counterexample): a completed emergency from two minutes ago with one
live document does NOT appear in the no-filter feed — the query also
requires `status != completed` when no status filter is given, contrary to
the claimed if-and-only-if visibility rule and its scenario. -/
theorem c4_counterexample :
    c4Emergency.status = Status.completed ∧
    c4Emergency.assignedHospitalId = some "H1" ∧
    c4Doc.emergencyId = c4Emergency.id ∧
    c4Now < c4Doc.expiresAt ∧
    hospitalFeed c4Now none "H1" 20 0 [c4Doc] [c4Emergency] = [] ∧
    hospitalFeedWhere c4Now none "H1" [c4Doc] c4Emergency = false := by
  decide

/-- C4 (amended): with no status filter, an emergency passes the feed query
iff it is assigned to the hospital AND its status is not `completed` AND it
has an unexpired document or (no documents at all and a trigger within the
last 60 minutes); in particular every completed emergency is excluded
regardless of documents, and everything the feed returns passed the
query. -/
theorem c4_amended (now : Nat) (hid : String) (docs : List MedicalDocument)
    (e : Emergency) (limit offset : Nat) (emergencies : List Emergency) :
    (hospitalFeedWhere now none hid docs e = true ↔
      (e.assignedHospitalId = some hid ∧ e.status ≠ Status.completed ∧
        ((∃ d ∈ docs, d.emergencyId = e.id ∧ now < d.expiresAt) ∨
          (docs.filter (fun d => d.emergencyId == e.id) = [] ∧
            now - 3600000 ≤ e.triggeredAt)))) ∧
    (e.status = Status.completed →
      hospitalFeedWhere now none hid docs e = false) ∧
    (∀ x ∈ hospitalFeed now none hid limit offset docs emergencies,
      hospitalFeedWhere now none hid docs x = true) := by
  refine ⟨?_, ?_, ?_⟩
  · simp only [hospitalFeedWhere, Bool.and_eq_true, Bool.or_eq_true,
      List.any_eq_true, List.mem_filter, Bool.not_eq_true',
      beq_iff_eq, decide_eq_true_eq, List.isEmpty_iff, and_assoc,
      beq_eq_false_iff_ne, ne_eq]
  · intro hc
    simp [hospitalFeedWhere, hc]
  · intro x hx
    have h1 := mem_dedupeByPatient _ _ _ hx
    have h2 := List.mem_of_mem_take h1
    have h3 := List.mem_of_mem_drop h2
    rw [mem_insertionSortBy] at h3
    exact (List.mem_filter.mp h3).2

/-- Witness for C4 (amended): the completed counterexample emergency is
excluded, by the amended theorem itself. -/
theorem c4_witness :
    hospitalFeedWhere c4Now none "H1" [c4Doc] c4Emergency = false :=
  (c4_amended c4Now "H1" [c4Doc] c4Emergency 20 0 [c4Emergency]).2.1 (by decide)

/-! ## Document Access Controller (C8) -/

/-- Payload of a document capability token. -/
structure TokenPayload where
  documentId : String
  userId : String
  role : Role
  exp : Nat
deriving DecidableEq, Repr

/-- A syntactically well-formed token as the handler sees it after the
base64url split: the decoded payload together with the result of the HMAC
constant-time signature comparison (the crypto collaborator). -/
structure Token where
  payload : TokenPayload
  sigValid : Bool
deriving DecidableEq, Repr

/-- `verifyDocumentToken`: reject a bad signature, falsy payload fields
(empty strings, zero `exp`), or an `exp` before `Math.floor(now / 1000)`
seconds. -/
def verifyDocumentToken (t : Token) (nowMs : Nat) : Option TokenPayload :=
  if t.sigValid = false then none
  else if t.payload.documentId = "" ∨ t.payload.userId = "" ∨
      t.payload.exp = 0 then none
  else if t.payload.exp < nowMs / 1000 then none
  else some t.payload

/-- Response of the document view `GET`; `url` is the blob reference the
success path exposes (the upstream-proxy and signed-redirect mechanics of
the source are collapsed into the blob-store collaborator). -/
structure ViewResponse where
  httpStatus : Nat
  error : Option String := none
  url : Option String := none
deriving DecidableEq, Repr

/-- `GET` of the document view route: verify the token, look the document
up, lazily delete it (blob and metadata) when past `expiresAt`, check the
access predicate against the owning emergency, then serve the blob.
Returns the response, the remaining document table and the deleted blob
ids. -/
def documentViewGET (token : Option Token) (now : Nat)
    (docs : List MedicalDocument) (emergencies : List Emergency) :
    ViewResponse × List MedicalDocument × List String :=
  match token with
  | none => ({ httpStatus := 400, error := some "Missing token" }, docs, [])
  | some t =>
    match verifyDocumentToken t now with
    | none =>
      ({ httpStatus := 401, error := some "Invalid or expired token" }, docs, [])
    | some payload =>
      match docs.find? (fun d => d.id == payload.documentId) with
      | none => ({ httpStatus := 404, error := some "Document not found" }, docs, [])
      | some doc =>
        if doc.expiresAt ≤ now then
          ({ httpStatus := 410, error := some "Document expired" },
           docs.filter (fun d => !(d.id == doc.id)), [doc.cloudinaryId])
        else
          match emergencies.find? (fun e => e.id == doc.emergencyId) with
          | none =>
            ({ httpStatus := 404, error := some "Emergency not found" }, docs, [])
          | some em =>
            if em.patientId = payload.userId ∨
                (payload.role = Role.hospital ∧
                  em.assignedHospitalId = some payload.userId) ∨
                (payload.role = Role.driver ∧
                  em.assignedDriverId = some payload.userId) then
              ({ httpStatus := 200, url := some doc.url }, docs, [])
            else
              ({ httpStatus := 403, error := some "Unauthorized" }, docs, [])

/-- C8: a token whose `exp` lies in the past is rejected (401) before the
document is even read — regardless of the document `expiresAt` — with no
deletion; a verified token against a document past its `expiresAt` deletes
the blob and the metadata on that access and reports 410; and a 200
response only ever serves a document whose `expiresAt` is still in the
future. -/
theorem c8_document_expiry (t : Token) (now : Nat)
    (docs : List MedicalDocument) (emergencies : List Emergency) :
    (t.payload.exp < now / 1000 →
      documentViewGET (some t) now docs emergencies =
        ({ httpStatus := 401, error := some "Invalid or expired token" },
         docs, [])) ∧
    (∀ p doc, verifyDocumentToken t now = some p →
      docs.find? (fun d => d.id == p.documentId) = some doc →
      doc.expiresAt ≤ now →
      documentViewGET (some t) now docs emergencies =
        ({ httpStatus := 410, error := some "Document expired" },
         docs.filter (fun d => !(d.id == doc.id)), [doc.cloudinaryId])) ∧
    ((documentViewGET (some t) now docs emergencies).1.httpStatus = 200 →
      ∃ d, d ∈ docs ∧
        (documentViewGET (some t) now docs emergencies).1.url = some d.url ∧
        now < d.expiresAt) := by
  refine ⟨?_, ?_, ?_⟩
  · intro hexp
    have hver : verifyDocumentToken t now = none := by
      unfold verifyDocumentToken
      by_cases h1 : t.sigValid = false
      · rw [if_pos h1]
      · rw [if_neg h1]
        by_cases h2 : t.payload.documentId = "" ∨ t.payload.userId = "" ∨
            t.payload.exp = 0
        · rw [if_pos h2]
        · rw [if_neg h2, if_pos hexp]
    simp only [documentViewGET, hver]
  · intro p doc hp hfind hexp2
    simp only [documentViewGET, hp, hfind]
    rw [if_pos hexp2]
  · cases hver2 : verifyDocumentToken t now with
    | none =>
      simp only [documentViewGET, hver2]
      intro h200
      simp at h200
    | some p =>
      cases hfind2 : docs.find? (fun d => d.id == p.documentId) with
      | none =>
        simp only [documentViewGET, hver2, hfind2]
        intro h200
        simp at h200
      | some doc =>
        by_cases hexp2 : doc.expiresAt ≤ now
        · simp only [documentViewGET, hver2, hfind2]
          rw [if_pos hexp2]
          intro h200
          simp at h200
        · simp only [documentViewGET, hver2, hfind2]
          rw [if_neg hexp2]
          cases hem : emergencies.find? (fun e => e.id == doc.emergencyId) with
          | none =>
            simp only [hem]
            intro h200
            simp at h200
          | some em =>
            simp only [hem]
            by_cases hacc : em.patientId = p.userId ∨
                (p.role = Role.hospital ∧ em.assignedHospitalId = some p.userId) ∨
                (p.role = Role.driver ∧ em.assignedDriverId = some p.userId)
            · rw [if_pos hacc]
              intro _
              exact ⟨doc, List.mem_of_find?_eq_some hfind2, rfl,
                Nat.lt_of_not_le hexp2⟩
            · rw [if_neg hacc]
              intro h200
              simp at h200

/-- Signed token with an `exp` 100 seconds after the epoch, long past at the
witness time. -/
def expiredToken : Token :=
  { payload := { documentId := "DOC1", userId := "P1"
                 role := Role.patient, exp := 100 }
    sigValid := true }

/-- Witness for C8: at t = 2000 seconds the token is rejected 401 and the
(still unexpired) document table is untouched, by the theorem itself. -/
theorem c8_witness :
    documentViewGET (some expiredToken) 2000000 [c4Doc] [] =
      ({ httpStatus := 401, error := some "Invalid or expired token" },
       [c4Doc], []) :=
  (c8_document_expiry expiredToken 2000000 [c4Doc] []).1 (by decide)

/-! ## Tracking Read Cache (C10) -/

/-- Ambulance position sub-object of the tracking payload. -/
structure AmbulancePosition where
  lat : Rat
  lng : Rat
  lastUpdate : Option Nat
deriving DecidableEq, Repr

/-- Hospital sub-object of the tracking payload. -/
structure HospitalView where
  id : String
  name : String
  licenseNumber : Option String
  phone : String
  address : Option String
  lat : Option Rat
  lng : Option Rat
deriving DecidableEq, Repr

/-- Driver sub-object of the tracking payload. -/
structure DriverView where
  id : String
  name : String
  phone : String
  vehiclePlate : Option String
deriving DecidableEq, Repr

/-- The `tracking` payload of the tracking `GET`. -/
structure TrackingView where
  emergencyId : String
  status : Status
  patientLat : Rat
  patientLng : Rat
  address : String
  ambulance : Option AmbulancePosition
  etaMinutes : Option Int
  distanceKm : Option Rat
  hospital : Option HospitalView
  driver : Option DriverView
deriving DecidableEq, Repr

/-- The payload the tracking `GET` builds from the emergency row and the
included hospital / driver relations. -/
def buildTrackingView (users : List User) (e : Emergency) : TrackingView :=
  { emergencyId := e.id
    status := e.status
    patientLat := e.patientLat
    patientLng := e.patientLng
    address := e.address
    ambulance :=
      match e.driverLat, e.driverLng with
      | some la, some lb =>
        some { lat := la, lng := lb, lastUpdate := e.driverLastLocationUpdate }
      | _, _ => none
    etaMinutes := e.etaMinutes
    distanceKm := e.distanceKm
    hospital :=
      match e.assignedHospitalId with
      | none => none
      | some hid =>
        match findUser users hid with
        | none => none
        | some h =>
          some { id := h.id, name := h.name, licenseNumber := h.licenseNumber
                 phone := h.phone, address := h.address
                 lat := h.locationLat, lng := h.locationLng }
    driver :=
      match e.assignedDriverId with
      | none => none
      | some did =>
        match findUser users did with
        | none => none
        | some d =>
          some { id := d.id, name := d.name, phone := d.phone
                 vehiclePlate := d.vehiclePlate } }

/-- Entry of the in-process tracking cache. -/
structure TrackCacheEntry where
  createdAt : Nat
  expiresAt : Nat
  payload : TrackingView
deriving DecidableEq, Repr

/-- The role part of the composite cache key. -/
def roleString : Role → String
  | .patient => "patient"
  | .hospital => "hospital"
  | .driver => "driver"

/-- The composite cache key `role:id:emergency_tracking:emergencyId`. -/
def trackingCacheKey (u : RequestUser) (emergencyId : String) : String :=
  roleString u.role ++ ":" ++ u.id ++ ":emergency_tracking:" ++ emergencyId

/-- Map lookup of the cache. -/
def cacheGet (cache : List (String × TrackCacheEntry)) (key : String) :
    Option TrackCacheEntry :=
  (cache.find? (fun kv => kv.1 == key)).map Prod.snd

/-- Map set of the cache. -/
def cacheSet (cache : List (String × TrackCacheEntry)) (key : String)
    (entry : TrackCacheEntry) : List (String × TrackCacheEntry) :=
  (key, entry) :: cache.filter (fun kv => !(kv.1 == key))

/-- Response of the tracking `GET`. -/
structure TrackResponse where
  httpStatus : Nat
  error : Option String := none
  tracking : Option TrackingView := none
  stale : Bool := false
deriving DecidableEq, Repr

/-- `GET` of the tracking route (`getTracking`): serve a fresh cache entry
unconditionally; otherwise read the store — `none` stands for a storage
failure, on which a cache entry younger than 30 seconds is served marked
stale — then check the access predicate, build the payload and cache it
for 2 seconds. -/
def getTracking (cache : List (String × TrackCacheEntry))
    (requestUser : Option RequestUser) (emergencyId : Option String)
    (now : Nat) (store : Option (List Emergency × List User)) :
    TrackResponse × List (String × TrackCacheEntry) :=
  match requestUser with
  | none => ({ httpStatus := 401, error := some "Unauthorized" }, cache)
  | some u =>
    match emergencyId with
    | none => ({ httpStatus := 400, error := some "Emergency ID is required" }, cache)
    | some eid =>
      let key := trackingCacheKey u eid
      let cached := cacheGet cache key
      let fresh :=
        match cached with
        | some entry => if now < entry.expiresAt then some entry else none
        | none => none
      match fresh with
      | some entry => ({ httpStatus := 200, tracking := some entry.payload }, cache)
      | none =>
        match store with
        | none =>
          match cached with
          | some entry =>
            if now - entry.createdAt < 30000 then
              ({ httpStatus := 200, tracking := some entry.payload
                 stale := true }, cache)
            else
              ({ httpStatus := 500, error := some "Failed to fetch tracking" }, cache)
          | none =>
            ({ httpStatus := 500, error := some "Failed to fetch tracking" }, cache)
        | some (emergencies, users) =>
          match emergencies.find? (fun e => e.id == eid) with
          | none => ({ httpStatus := 404, error := some "Emergency not found" }, cache)
          | some em =>
            if em.patientId = u.id ∨
                (u.role = Role.hospital ∧ em.assignedHospitalId = some u.id) ∨
                (u.role = Role.driver ∧ em.assignedDriverId = some u.id) then
              ({ httpStatus := 200, tracking := some (buildTrackingView users em) },
               cacheSet cache key
                 { createdAt := now, expiresAt := now + 2000
                   payload := buildTrackingView users em })
            else
              ({ httpStatus := 403, error := some "Unauthorized" }, cache)

/-- C10: while the per-(role, requester, emergency) cache entry is fresh
(2-second TTL), the tracking `GET` returns the cached payload without
touching the store — the response is identical for every store, including
stores in which the requester is no longer assigned to the emergency and
even a failing store — and on the degraded-read path (store failure) an
entry younger than 30 seconds is served marked stale, again without any
access re-evaluation. -/
theorem c10_cache (cache : List (String × TrackCacheEntry)) (u : RequestUser)
    (eid : String) (now : Nat) (entry : TrackCacheEntry)
    (hget : cacheGet cache (trackingCacheKey u eid) = some entry) :
    (∀ store, now < entry.expiresAt →
      getTracking cache (some u) (some eid) now store =
        ({ httpStatus := 200, tracking := some entry.payload }, cache)) ∧
    (∀ store1 store2, now < entry.expiresAt →
      getTracking cache (some u) (some eid) now store1 =
        getTracking cache (some u) (some eid) now store2) ∧
    (¬now < entry.expiresAt → now - entry.createdAt < 30000 →
      getTracking cache (some u) (some eid) now none =
        ({ httpStatus := 200, tracking := some entry.payload
           stale := true }, cache)) := by
  have hserve : ∀ store, now < entry.expiresAt →
      getTracking cache (some u) (some eid) now store =
        ({ httpStatus := 200, tracking := some entry.payload }, cache) := by
    intro store h
    simp only [getTracking, hget, if_pos h]
  refine ⟨hserve, fun s1 s2 h => (hserve s1 h).trans (hserve s2 h).symm, ?_⟩
  intro hstale hage
  simp only [getTracking, hget, if_neg hstale]
  rw [if_pos hage]

/-- Cache entry of the C10 witness. -/
def c10Entry : TrackCacheEntry :=
  { createdAt := 1000, expiresAt := 3000
    payload := buildTrackingView [] c7Emergency }

/-- Cache of the C10 witness, keyed for patient P1 and emergency E1. -/
def c10Cache : List (String × TrackCacheEntry) :=
  [(trackingCacheKey ⟨"P1", Role.patient⟩ "E1", c10Entry)]

/-- Witness for C10: at t = 2000 the fresh entry is served against a FAILING
store (no authoritative read, no access check), by the theorem itself. -/
theorem c10_witness :
    getTracking c10Cache (some ⟨"P1", Role.patient⟩) (some "E1") 2000 none =
      ({ httpStatus := 200, tracking := some c10Entry.payload }, c10Cache) :=
  (c10_cache c10Cache ⟨"P1", Role.patient⟩ "E1" 2000 c10Entry
    (by decide)).1 none (by decide)

end HospitalApp
